import Mathlib

/-!
Shallow embedding of `pgee` (`src/lib/index.js`), a PostgreSQL LISTEN/NOTIFY
event-emitter adapter.

The instance state is the structure `PgEe` (`_channels`, `_connection`,
`_done`, and the inherited EventEmitter listener table).  Every observable
action of an operation — issuing a database query, invoking a caller-supplied
callback, firing a local event through the base `EventEmitter.prototype.emit`,
releasing a pooled connection — is recorded as an `Out` value.

Each asynchronous operation is split into its synchronous phase (`listen`,
`unlisten`, `emit`, `connect`), which runs up to the point where the database
query (or pool acquisition) is issued and returns an optional pending
continuation, and the query-completion phase (`listenQueryCb`,
`unlistenQueryCb`, `emitQueryCb`, `connectCb`), which is the callback the
source passes to `query()` (resp. `Postgresql.connect`), applied when the
command settles with an optional error.  This matches the single-threaded
cooperative scheduling of the source: callers may interleave further
synchronous phases before a pending completion runs.

External collaborators are modelled as opaque hooks: `JSON.stringify` is a
parameter `stringify : JsVal → String`, and `JSON.parse` a parameter
`parse : String → Option JsVal` where `none` means the parse threw.

An `Out.fired` entry records the delivery handed to
`EventEmitter.prototype.emit`.  Whether that synchronous in-process delivery
itself raises — Node's emitter throws when an `'error'` event is emitted
with no registered `'error'` listener — is modelled by `emitBaseThrown` and
the per-operation functions `listenSyncThrown`, `unlistenSyncThrown`,
`emitSyncThrown`, `connectSyncThrown` and `closeSyncThrown`, which follow
the synchronous paths of the corresponding operations.
-/

namespace Pgee

/-- Errors observable in the model: `notConnected` is the
`new Error('not connected to database')` the source constructs, `dbErr n` is
an opaque error handed to a query callback by the `pg` driver,
`parseFailure` is the exception thrown by a failing `JSON.parse`, and
`unhandledError` is the wrapper error Node's emitter throws when an
`'error'` event carrying a non-Error value is emitted with no `'error'`
listener registered. -/
inductive JErr where
  | notConnected
  | dbErr (n : Nat)
  | parseFailure
  | unhandledError
  deriving DecidableEq, Repr

/-- JavaScript values carried in callback arguments and fired events. -/
inductive JsVal where
  | vnull
  | vundef
  | vbool (b : Bool)
  | vnum (n : Int)
  | vstr (s : String)
  | verr (e : JErr)
  deriving DecidableEq, Repr

/-- Primitive JavaScript values accepted as channel identifiers.  Objects are
handled separately by the structured `{channel, ...}` forms below, mirroring
the `channel !== null && typeof channel === 'object'` test in the source. -/
inductive JsPrim where
  | pnull
  | pundef
  | pbool (b : Bool)
  | pnum (n : Int)
  | pstr (s : String)
  deriving DecidableEq, Repr

/-- JavaScript string coercion `channel + ''` on primitive values. -/
def JsPrim.toStr : JsPrim → String
  | .pnull => "null"
  | .pundef => "undefined"
  | .pbool b => cond b "true" "false"
  | .pnum n => toString n
  | .pstr s => s

/-- Instance state: `channels` is `this._channels`, `connected` records
whether `this._connection !== null`, `hasDone` whether `this._done` is a
function (a pool release function), and `listeners` is the inherited
EventEmitter listener table as a list of (event name, listener id) pairs in
attachment order. -/
structure PgEe where
  channels : List String
  connected : Bool
  hasDone : Bool
  listeners : List (String × Nat)
  deriving DecidableEq, Repr

/-- Observable actions: `query sql params` is `this._connection.query(...)`,
`cb args` is an invocation of the caller-supplied callback with `args`,
`fired event args` is `EventEmitter.prototype.emit.call(this, event, ...args)`,
`release` is the `this._done()` call in `close`, and `poolConnect` is the
`Postgresql.connect(...)` pool acquisition. -/
inductive Out where
  | query (sql : String) (params : List String)
  | cb (args : List JsVal)
  | fired (event : String) (args : List JsVal)
  | release
  | poolConnect
  deriving DecidableEq, Repr

/-- Whether an output is a database command (a `query` call). -/
def Out.isQuery : Out → Bool
  | .query _ _ => true
  | _ => false

/-- Number of database commands in an output trace. -/
def dbCommandCount (outs : List Out) : Nat :=
  outs.countP (fun o => o.isQuery)

/-- `_emit(context, event, message)`: the delivery `_emit` hands to the base
`EventEmitter.prototype.emit`, bypassing the overridden public `emit`.
Whether the base emitter throws on that delivery (an unhandled `'error'`
event) is modelled separately by `emitBaseThrown`. -/
def emitLocal (event : String) (message : JsVal) : Out :=
  Out.fired event [message]

/-- `_callbackOrEmit(context, callback, event, ...args)`: when a callback
function is supplied, invoke it with `args` (the event name is dropped,
`offset = 3`); otherwise hand a delivery of `event` with `args` to the base
emitter (`offset = 2`).  Whether the base-emitter fallback throws is
modelled separately by `callbackOrEmitThrown`. -/
def callbackOrEmit (hasCb : Bool) (event : String) (args : List JsVal) : Out :=
  if hasCb then Out.cb args else Out.fired event args

/-- Result of the synchronous phase of a public operation: the state after
the phase, the outputs produced, and the pending query-completion
continuation when a command was issued.  The operations' own code contains
no `throw`; the exception the base emitter may raise while a synchronous
path reports an error is computed by the `*SyncThrown` functions below. -/
structure Res (π : Type) where
  state : PgEe
  outs : List Out
  pending : Option π
  deriving DecidableEq, Repr

/-- `listen` argument: a bare primitive, or an object carrying `channel` and
an optional `listener` (`some` exactly when `typeof listener === 'function'`). -/
inductive LSpec where
  | bare (v : JsPrim)
  | obj (channel : JsPrim) (listener : Option Nat)
  deriving DecidableEq, Repr

/-- The destructuring-and-coercion prologue of `listen`: extract the listener
from the object form, then coerce the channel with `channel + ''`. -/
def LSpec.coerce : LSpec → String × Option Nat
  | .bare v => (v.toStr, none)
  | .obj c l => (c.toStr, l)

/-- The SQL text `` `LISTEN "${channel}"` ``. -/
def listenSql (channel : String) : String :=
  "LISTEN \"" ++ channel ++ "\""

/-- The SQL text `` `UNLISTEN "${channel}"` ``. -/
def unlistenSql (channel : String) : String :=
  "UNLISTEN \"" ++ channel ++ "\""

/-- Continuation captured by the query callback inside `listen`. -/
structure LPend where
  channel : String
  listener : Option Nat
  hasCb : Bool
  deriving DecidableEq, Repr

/-- Synchronous phase of `PgEe.prototype.listen(channel, callback)`:
not-connected check, coercion, duplicate fast path (attach listener, report
success without a command), otherwise issue `LISTEN "channel"`. -/
def listen (s : PgEe) (spec : LSpec) (hasCb : Bool) : Res LPend :=
  if s.connected = false then
    ⟨s, [callbackOrEmit hasCb "error" [JsVal.verr JErr.notConnected]], none⟩
  else
    let c := spec.coerce.1
    if s.channels.contains c then
      let s1 :=
        match spec.coerce.2 with
        | some l => { s with listeners := s.listeners ++ [(c, l)] }
        | none => s
      ⟨s1, [callbackOrEmit hasCb "listen" [JsVal.vnull, JsVal.vstr c]], none⟩
    else
      ⟨s, [Out.query (listenSql c) []], some ⟨c, spec.coerce.2, hasCb⟩⟩

/-- The callback `listen` passes to `query()`: on error report it and stop;
on success re-check membership (the race guard), push if absent, attach the
listener if one was supplied, and report success with the channel name. -/
def listenQueryCb (s : PgEe) (p : LPend) (err : Option JErr) : PgEe × List Out :=
  match err with
  | some e => (s, [callbackOrEmit p.hasCb "error" [JsVal.verr e]])
  | none =>
    let s1 :=
      if s.channels.contains p.channel then s
      else { s with channels := s.channels ++ [p.channel] }
    let s2 :=
      match p.listener with
      | some l => { s1 with listeners := s1.listeners ++ [(p.channel, l)] }
      | none => s1
    (s2, [callbackOrEmit p.hasCb "listen" [JsVal.vnull, JsVal.vstr p.channel]])

/-- `unlisten` argument: a bare primitive, or an object carrying `channel`
and `removeListeners` (already coerced to a boolean by `!!`). -/
inductive USpec where
  | bare (v : JsPrim)
  | obj (channel : JsPrim) (removeListeners : Bool)
  deriving DecidableEq, Repr

/-- The destructuring-and-coercion prologue of `unlisten`. -/
def USpec.coerce : USpec → String × Bool
  | .bare v => (v.toStr, false)
  | .obj c r => (c.toStr, r)

/-- `this.removeAllListeners(channel)`: drop every listener attached under
the given event name. -/
def removeAllListeners (s : PgEe) (channel : String) : PgEe :=
  { s with listeners := s.listeners.filter (fun p => p.1 != channel) }

/-- Continuation captured by the query callback inside `unlisten`. -/
structure UPend where
  channel : String
  removeListeners : Bool
  hasCb : Bool
  deriving DecidableEq, Repr

/-- Synchronous phase of `PgEe.prototype.unlisten(channel, callback)`:
not-connected check, coercion, untracked-channel fast path (optionally remove
listeners, report success without a command), otherwise issue
`UNLISTEN "channel"`. -/
def unlisten (s : PgEe) (spec : USpec) (hasCb : Bool) : Res UPend :=
  if s.connected = false then
    ⟨s, [callbackOrEmit hasCb "error" [JsVal.verr JErr.notConnected]], none⟩
  else
    let c := spec.coerce.1
    if s.channels.contains c = false then
      let s1 := if spec.coerce.2 then removeAllListeners s c else s
      ⟨s1, [callbackOrEmit hasCb "unlisten" [JsVal.vnull, JsVal.vstr c]], none⟩
    else
      ⟨s, [Out.query (unlistenSql c) []], some ⟨c, spec.coerce.2, hasCb⟩⟩

/-- The callback `unlisten` passes to `query()`: on error report it and stop;
on success splice the channel out if it is still present (the race guard),
optionally remove all listeners, and report success with the channel name. -/
def unlistenQueryCb (s : PgEe) (p : UPend) (err : Option JErr) : PgEe × List Out :=
  match err with
  | some e => (s, [callbackOrEmit p.hasCb "error" [JsVal.verr e]])
  | none =>
    let s1 :=
      if s.channels.contains p.channel then
        { s with channels := s.channels.erase p.channel }
      else s
    let s2 := if p.removeListeners then removeAllListeners s1 p.channel else s1
    (s2, [callbackOrEmit p.hasCb "unlisten" [JsVal.vnull, JsVal.vstr p.channel]])

/-- The SQL text of the notify command in `emit`. -/
def notifySql : String :=
  "SELECT pg_notify($1, $2)"

/-- Synchronous phase of the public `PgEe.prototype.emit(event, message)`:
`'error'` events are fired locally through the base emitter; otherwise, if
not connected, a not-connected error event is fired; otherwise a
parameterised `pg_notify` query is issued with the event name and the
`JSON.stringify`-serialized message.  `stringify` is the opaque
serialization hook. -/
def emit (stringify : JsVal → String) (s : PgEe) (event : String) (message : JsVal) :
    Res Unit :=
  if event = "error" then
    ⟨s, [emitLocal "error" message], none⟩
  else if s.connected = false then
    ⟨s, [emitLocal "error" (JsVal.verr JErr.notConnected)], none⟩
  else
    ⟨s, [Out.query notifySql [event, stringify message]], some ()⟩

/-- The callback `emit` passes to `query()`: on error fire a local error
event; on success do nothing (fire-and-forget). -/
def emitQueryCb (s : PgEe) (err : Option JErr) : PgEe × List Out :=
  match err with
  | some e => (s, [emitLocal "error" (JsVal.verr e)])
  | none => (s, [])

/-- Continuation captured by the `Postgresql.connect` callback. -/
structure CPend where
  hasCb : Bool
  deriving DecidableEq, Repr

/-- Synchronous phase of `PgEe.prototype.connect(callback)`: if a connection
already exists report success immediately, otherwise acquire one from the
pool. -/
def connect (s : PgEe) (hasCb : Bool) : Res CPend :=
  if s.connected then
    ⟨s, [callbackOrEmit hasCb "connect" []], none⟩
  else
    ⟨s, [Out.poolConnect], some ⟨hasCb⟩⟩

/-- The callback passed to `Postgresql.connect`: on error report it; on
success store the release function and the connection and report success. -/
def connectCb (s : PgEe) (p : CPend) (err : Option JErr) : PgEe × List Out :=
  match err with
  | some e => (s, [callbackOrEmit p.hasCb "error" [JsVal.verr e]])
  | none =>
    ({ s with connected := true, hasDone := true },
     [callbackOrEmit p.hasCb "connect" []])

/-- `PgEe.prototype.close()`: a no-op when not connected; otherwise release a
pooled connection, remove every listener, tear down the connection handlers,
and clear the registry and handle. -/
def close (s : PgEe) : Res Unit :=
  if s.connected = false then
    ⟨s, [], none⟩
  else
    ⟨{ channels := [], connected := false, hasDone := false, listeners := [] },
     (if s.hasDone then [Out.release] else []), none⟩

/-- Whether the listener table holds at least one listener for `event`. -/
def hasListener (s : PgEe) (event : String) : Bool :=
  s.listeners.any (fun p => p.1 == event)

/-- The exception thrown synchronously by `EventEmitter.prototype.emit` on a
delivery: Node's emitter throws when an `'error'` event is emitted with no
registered `'error'` listener — the error argument itself when it is an
Error value, a wrapper error otherwise.  Every other delivery invokes the
listeners (or drops the event) and returns normally. -/
def emitBaseThrown (s : PgEe) (event : String) (args : List JsVal) : Option JErr :=
  if event = "error" ∧ hasListener s "error" = false then
    some
      (match args with
       | JsVal.verr e :: _ => e
       | _ => JErr.unhandledError)
  else none

/-- The exception propagated synchronously by `_callbackOrEmit`: none when a
callback function is supplied (the callback is invoked instead of the base
emitter); otherwise whatever the base-emitter fallback throws. -/
def callbackOrEmitThrown (s : PgEe) (hasCb : Bool) (event : String)
    (args : List JsVal) : Option JErr :=
  if hasCb then none else emitBaseThrown s event args

/-- The exception thrown synchronously by `PgEe.prototype.listen`, following
its synchronous paths: the not-connected error report
(`_callbackOrEmit(this, callback, 'error', err)`), the duplicate fast path's
success report on the listener-attached state, or — on the command path —
nothing, since all reporting is deferred to the query callback. -/
def listenSyncThrown (s : PgEe) (spec : LSpec) (hasCb : Bool) : Option JErr :=
  if s.connected = false then
    callbackOrEmitThrown s hasCb "error" [JsVal.verr JErr.notConnected]
  else
    let c := spec.coerce.1
    if s.channels.contains c then
      let s1 :=
        match spec.coerce.2 with
        | some l => { s with listeners := s.listeners ++ [(c, l)] }
        | none => s
      callbackOrEmitThrown s1 hasCb "listen" [JsVal.vnull, JsVal.vstr c]
    else none

/-- The exception thrown synchronously by `PgEe.prototype.unlisten`,
following its synchronous paths. -/
def unlistenSyncThrown (s : PgEe) (spec : USpec) (hasCb : Bool) : Option JErr :=
  if s.connected = false then
    callbackOrEmitThrown s hasCb "error" [JsVal.verr JErr.notConnected]
  else
    let c := spec.coerce.1
    if s.channels.contains c = false then
      let s1 := if spec.coerce.2 then removeAllListeners s c else s
      callbackOrEmitThrown s1 hasCb "unlisten" [JsVal.vnull, JsVal.vstr c]
    else none

/-- The exception thrown synchronously by the public `PgEe.prototype.emit`,
following its synchronous paths: the `'error'` fast path and the
not-connected error report both go through `_emit` (the base emitter, with
no callback available); the query path defers reporting to the query
callback. -/
def emitSyncThrown (s : PgEe) (event : String) (message : JsVal) : Option JErr :=
  if event = "error" then
    emitBaseThrown s "error" [message]
  else if s.connected = false then
    emitBaseThrown s "error" [JsVal.verr JErr.notConnected]
  else none

/-- The exception thrown synchronously by `PgEe.prototype.connect`: its only
synchronous delivery is the already-connected success report of the
non-error `'connect'` event. -/
def connectSyncThrown (s : PgEe) (hasCb : Bool) : Option JErr :=
  if s.connected then
    callbackOrEmitThrown s hasCb "connect" []
  else none

/-- The exception thrown synchronously by `PgEe.prototype.close`: `close`
fires no events — it only calls the release function, removes listeners and
clears fields — so no path throws. -/
def closeSyncThrown (_ : PgEe) : Option JErr :=
  none

/-- An inbound notification from the connection: a channel name and a raw
string payload. -/
structure Notification where
  channel : String
  payload : String
  deriving DecidableEq, Repr

/-- The `connectionOnNotification` handler installed by `_setupConnection`:
`try { payload = JSON.parse(payload) } finally { _emit(this, channel, payload) }`.
`parse` is the opaque deserialization hook (`none` = `JSON.parse` threw).
The first component is the outputs (the local event always fires, carrying
the decoded value on success and the raw payload otherwise); the second is
the exception propagating out of the handler — because the `try` has a
`finally` but no `catch`, a parse failure is re-thrown after the event is
fired. -/
def connectionOnNotification (parse : String → Option JsVal) (n : Notification) :
    List Out × Option JErr :=
  match parse n.payload with
  | some v => ([emitLocal n.channel v], none)
  | none => ([emitLocal n.channel (JsVal.vstr n.payload)], some JErr.parseFailure)

/-- A `listen` call run to completion in isolation: the synchronous phase
followed, when a command was issued, by its query callback settling with
`err`. -/
def listenRun (s : PgEe) (spec : LSpec) (hasCb : Bool) (err : Option JErr) :
    PgEe × List Out :=
  let r := listen s spec hasCb
  match r.pending with
  | none => (r.state, r.outs)
  | some p =>
    let c := listenQueryCb r.state p err
    (c.1, r.outs ++ c.2)

/-- An `unlisten` call run to completion in isolation. -/
def unlistenRun (s : PgEe) (spec : USpec) (hasCb : Bool) (err : Option JErr) :
    PgEe × List Out :=
  let r := unlisten s spec hasCb
  match r.pending with
  | none => (r.state, r.outs)
  | some p =>
    let c := unlistenQueryCb r.state p err
    (c.1, r.outs ++ c.2)

/-- The §5 race schedule for two concurrent `listen` calls: both synchronous
phases run before either query completes, then the pending completions settle
successfully, the first call's completion first when `oneFirst`, otherwise
the second call's completion first. -/
def listenRace (s0 : PgEe) (spec1 spec2 : LSpec) (cb1 cb2 : Bool) (oneFirst : Bool) :
    PgEe × List Out :=
  let r1 := listen s0 spec1 cb1
  let r2 := listen r1.state spec2 cb2
  let outs := r1.outs ++ r2.outs
  match r1.pending, r2.pending with
  | some p1, some p2 =>
    let pa := if oneFirst then p1 else p2
    let pb := if oneFirst then p2 else p1
    let ca := listenQueryCb r2.state pa none
    let cbk := listenQueryCb ca.1 pb none
    (cbk.1, outs ++ ca.2 ++ cbk.2)
  | some p1, none =>
    let ca := listenQueryCb r2.state p1 none
    (ca.1, outs ++ ca.2)
  | none, some p2 =>
    let ca := listenQueryCb r2.state p2 none
    (ca.1, outs ++ ca.2)
  | none, none => (r2.state, outs)

/-- The §5 race schedule for two concurrent `unlisten` calls. -/
def unlistenRace (s0 : PgEe) (spec1 spec2 : USpec) (cb1 cb2 : Bool) (oneFirst : Bool) :
    PgEe × List Out :=
  let r1 := unlisten s0 spec1 cb1
  let r2 := unlisten r1.state spec2 cb2
  let outs := r1.outs ++ r2.outs
  match r1.pending, r2.pending with
  | some p1, some p2 =>
    let pa := if oneFirst then p1 else p2
    let pb := if oneFirst then p2 else p1
    let ca := unlistenQueryCb r2.state pa none
    let cbk := unlistenQueryCb ca.1 pb none
    (cbk.1, outs ++ ca.2 ++ cbk.2)
  | some p1, none =>
    let ca := unlistenQueryCb r2.state p1 none
    (ca.1, outs ++ ca.2)
  | none, some p2 =>
    let ca := unlistenQueryCb r2.state p2 none
    (ca.1, outs ++ ca.2)
  | none, none => (r2.state, outs)

/-- The four-call sequence `subscribe`, `unsubscribe`, `subscribe`,
`unsubscribe`, each call completing (successfully) before the next is
issued. -/
def subUnsubSeq (s0 : PgEe) (sp1 sp3 : LSpec) (u2 u4 : USpec)
    (cb1 cb2 cb3 cb4 : Bool) : PgEe × List Out :=
  let a := listenRun s0 sp1 cb1 none
  let b := unlistenRun a.1 u2 cb2 none
  let c := listenRun b.1 sp3 cb3 none
  let d := unlistenRun c.1 u4 cb4 none
  (d.1, a.2 ++ b.2 ++ c.2 ++ d.2)

/-! ### Helper lemmas -/

theorem contains_iff_mem (l : List String) (c : String) :
    l.contains c = true ↔ c ∈ l := by
  simp [List.contains, List.elem_iff]

theorem contains_false_iff (l : List String) (c : String) :
    l.contains c = false ↔ c ∉ l := by
  rw [← contains_iff_mem l c]
  cases h : l.contains c <;> simp

theorem contains_append_self (l : List String) (c : String) :
    (l ++ [c]).contains c = true := by
  rw [contains_iff_mem]
  simp

theorem isQuery_query (sql : String) (params : List String) :
    (Out.query sql params).isQuery = true := rfl

theorem isQuery_cb (args : List JsVal) : (Out.cb args).isQuery = false := rfl

theorem isQuery_fired (event : String) (args : List JsVal) :
    (Out.fired event args).isQuery = false := rfl

theorem isQuery_callbackOrEmit (hasCb : Bool) (event : String) (args : List JsVal) :
    (callbackOrEmit hasCb event args).isQuery = false := by
  cases hasCb <;> simp [callbackOrEmit, Out.isQuery]

theorem listenQueryCb_none_channels (s : PgEe) (p : LPend) :
    (listenQueryCb s p none).1.channels =
      if s.channels.contains p.channel then s.channels
      else s.channels ++ [p.channel] := by
  rcases h : p.listener with _ | l <;>
    simp [listenQueryCb, h] <;> split <;> rfl

theorem listenQueryCb_none_connected (s : PgEe) (p : LPend) :
    (listenQueryCb s p none).1.connected = s.connected := by
  rcases h : p.listener with _ | l <;>
    simp [listenQueryCb, h] <;> split <;> rfl

theorem listenQueryCb_none_outs (s : PgEe) (p : LPend) :
    (listenQueryCb s p none).2 =
      [callbackOrEmit p.hasCb "listen" [JsVal.vnull, JsVal.vstr p.channel]] := by
  rcases h : p.listener with _ | l <;> simp [listenQueryCb, h]

theorem unlistenQueryCb_none_channels (s : PgEe) (p : UPend) :
    (unlistenQueryCb s p none).1.channels =
      if s.channels.contains p.channel then s.channels.erase p.channel
      else s.channels := by
  cases h : p.removeListeners <;>
    simp [unlistenQueryCb, h, removeAllListeners] <;> split <;> rfl

theorem unlistenQueryCb_none_connected (s : PgEe) (p : UPend) :
    (unlistenQueryCb s p none).1.connected = s.connected := by
  cases h : p.removeListeners <;>
    simp [unlistenQueryCb, h, removeAllListeners] <;> split <;> rfl

theorem unlistenQueryCb_none_outs (s : PgEe) (p : UPend) :
    (unlistenQueryCb s p none).2 =
      [callbackOrEmit p.hasCb "unlisten" [JsVal.vnull, JsVal.vstr p.channel]] := by
  cases h : p.removeListeners <;> simp [unlistenQueryCb, h]

/-- Synchronous phase of `listen` on a live connection with the channel not
yet tracked: no mutation, one `LISTEN` query, a pending continuation. -/
theorem listen_fresh (s : PgEe) (sp : LSpec) (hasCb : Bool)
    (hc : s.connected = true) (hm : s.channels.contains sp.coerce.1 = false) :
    listen s sp hasCb =
      ⟨s, [Out.query (listenSql sp.coerce.1) []],
        some ⟨sp.coerce.1, sp.coerce.2, hasCb⟩⟩ := by
  simp [listen, hc, hm]
  exact (contains_false_iff _ _).mp hm

/-- Synchronous phase of `unlisten` on a live connection with the channel
tracked: no mutation, one `UNLISTEN` query, a pending continuation. -/
theorem unlisten_present (s : PgEe) (sp : USpec) (hasCb : Bool)
    (hc : s.connected = true) (hm : s.channels.contains sp.coerce.1 = true) :
    unlisten s sp hasCb =
      ⟨s, [Out.query (unlistenSql sp.coerce.1) []],
        some ⟨sp.coerce.1, sp.coerce.2, hasCb⟩⟩ := by
  simp [unlisten, hc, hm]
  exact (contains_iff_mem _ _).mp hm

/-! ### Claims -/

/-- Claim C1: with a live connection and the coerced channel name `c` not yet
tracked, calling `listen` and letting its command complete successfully, then
calling `listen` again for the same channel, issues the `LISTEN` database
command exactly once in total; afterwards the registry contains `c` exactly
once, the second call reports success with the channel name (without issuing
a command), and a listener supplied to the second call is attached. -/
theorem listen_duplicate_single_command (s0 : PgEe) (spec1 spec2 : LSpec)
    (cb1 cb2 : Bool) (c : String)
    (hc : s0.connected = true)
    (hm : s0.channels.contains c = false)
    (h1 : spec1.coerce.1 = c) (h2 : spec2.coerce.1 = c) :
    dbCommandCount ((listenRun s0 spec1 cb1 none).2 ++
        (listenRun (listenRun s0 spec1 cb1 none).1 spec2 cb2 none).2) = 1 ∧
    (listenRun (listenRun s0 spec1 cb1 none).1 spec2 cb2 none).1.channels.count c = 1 ∧
    (listenRun (listenRun s0 spec1 cb1 none).1 spec2 cb2 none).2 =
      [callbackOrEmit cb2 "listen" [JsVal.vnull, JsVal.vstr c]] ∧
    (∀ l, spec2.coerce.2 = some l →
      (c, l) ∈ (listenRun (listenRun s0 spec1 cb1 none).1 spec2 cb2 none).1.listeners) := by
  have hm' : c ∉ s0.channels := (contains_false_iff _ _).mp hm
  have h0 : s0.channels.count c = 0 := List.count_eq_zero.mpr hm'
  rcases hl1 : spec1.coerce.2 with _ | l1 <;> rcases hl2 : spec2.coerce.2 with _ | l2 <;>
    simp [listenRun, listen, listenQueryCb, h1, h2, hl1, hl2, hc, hm, hm',
      dbCommandCount, List.countP_cons, List.countP_append,
      isQuery_callbackOrEmit, isQuery_query, isQuery_cb, isQuery_fired,
      List.count_append, h0]

/-- Witness for C1: a concrete double subscribe on channel `"foo"`. -/
theorem listen_duplicate_single_command_witness :
    (listenRun (listenRun ⟨[], true, false, []⟩ (LSpec.bare (JsPrim.pstr "foo")) true none).1
        (LSpec.obj (JsPrim.pstr "foo") (some 7)) false none).1.channels.count "foo" = 1 ∧
    ("foo", 7) ∈ (listenRun (listenRun ⟨[], true, false, []⟩
        (LSpec.bare (JsPrim.pstr "foo")) true none).1
        (LSpec.obj (JsPrim.pstr "foo") (some 7)) false none).1.listeners := by
  have h := listen_duplicate_single_command ⟨[], true, false, []⟩
    (LSpec.bare (JsPrim.pstr "foo")) (LSpec.obj (JsPrim.pstr "foo") (some 7))
    true false "foo" rfl (by decide) rfl rfl
  exact ⟨h.2.1, h.2.2.2 7 rfl⟩

/-- Conclusion of the subscribe race: the settled registry holds the channel
exactly once and the trace is two `LISTEN` commands followed by the two
success reports, in completion order — no error is surfaced. -/
def listenRaceOk (cb1 cb2 oneFirst : Bool) (c : String) (r : PgEe × List Out) : Prop :=
  r.1.channels.count c = 1 ∧
  r.2 = [Out.query (listenSql c) [], Out.query (listenSql c) [],
    callbackOrEmit (if oneFirst then cb1 else cb2) "listen" [JsVal.vnull, JsVal.vstr c],
    callbackOrEmit (if oneFirst then cb2 else cb1) "listen" [JsVal.vnull, JsVal.vstr c]]

/-- Conclusion of the unsubscribe race: the settled registry no longer holds
the channel and the trace is two `UNLISTEN` commands followed by the two
success reports, in completion order — no error is surfaced. -/
def unlistenRaceOk (cb1 cb2 oneFirst : Bool) (c : String) (r : PgEe × List Out) : Prop :=
  r.1.channels.count c = 0 ∧
  r.2 = [Out.query (unlistenSql c) [], Out.query (unlistenSql c) [],
    callbackOrEmit (if oneFirst then cb1 else cb2) "unlisten" [JsVal.vnull, JsVal.vstr c],
    callbackOrEmit (if oneFirst then cb2 else cb1) "unlisten" [JsVal.vnull, JsVal.vstr c]]

/-- Claim C2: two concurrent `listen` calls for the same coerced channel name
(both synchronous phases before either command resolves, completions in
either order) both report success with that channel and leave it in the
registry exactly once; symmetrically, two concurrent `unlisten` calls both
report success and leave the registry without the channel.  No error is
surfaced due to the race. -/
theorem concurrent_same_channel_race_safe
    (s0 t0 : PgEe) (spec1 spec2 : LSpec) (u1 u2 : USpec)
    (cb1 cb2 db1 db2 ord : Bool) (c d : String) :
    (s0.connected = true → s0.channels.contains c = false →
      spec1.coerce.1 = c → spec2.coerce.1 = c →
      listenRaceOk cb1 cb2 ord c (listenRace s0 spec1 spec2 cb1 cb2 ord)) ∧
    (t0.connected = true → t0.channels.count d = 1 →
      u1.coerce.1 = d → u2.coerce.1 = d →
      unlistenRaceOk db1 db2 ord d (unlistenRace t0 u1 u2 db1 db2 ord)) := by
  constructor
  · intro hc hm h1 h2
    have hm' : c ∉ s0.channels := (contains_false_iff _ _).mp hm
    have h0 : s0.channels.count c = 0 := List.count_eq_zero.mpr hm'
    cases ord <;>
      rcases hl1 : spec1.coerce.2 with _ | l1 <;> rcases hl2 : spec2.coerce.2 with _ | l2 <;>
        simp [listenRace, listen, listenQueryCb, listenRaceOk, h1, h2, hl1, hl2,
          hc, hm, hm', List.count_append, h0]
  · intro hc hcount h1 h2
    have hmem : d ∈ t0.channels := List.count_pos_iff.mp (by omega)
    have herase : (t0.channels.erase d).count d = 0 := by
      rw [List.count_erase_self]; omega
    have herase' : d ∉ t0.channels.erase d := by
      intro hmem2
      have := List.count_pos_iff.mpr hmem2
      omega
    cases ord <;>
      cases hr1 : u1.coerce.2 <;> cases hr2 : u2.coerce.2 <;>
        simp [unlistenRace, unlisten, unlistenQueryCb, unlistenRaceOk,
          removeAllListeners, h1, h2, hr1, hr2, hc, hmem, herase, herase']

/-- Witness for C2: concrete subscribe and unsubscribe races on `"foo"`. -/
theorem concurrent_same_channel_race_safe_witness :
    listenRaceOk true false true "foo"
      (listenRace ⟨[], true, false, []⟩ (LSpec.bare (JsPrim.pstr "foo"))
        (LSpec.obj (JsPrim.pstr "foo") (some 3)) true false true) ∧
    unlistenRaceOk true true false "foo"
      (unlistenRace ⟨["foo"], true, false, [("foo", 3)]⟩
        (USpec.obj (JsPrim.pstr "foo") true) (USpec.bare (JsPrim.pstr "foo"))
        true true false) :=
  ⟨(concurrent_same_channel_race_safe ⟨[], true, false, []⟩
      ⟨["foo"], true, false, [("foo", 3)]⟩ (LSpec.bare (JsPrim.pstr "foo"))
      (LSpec.obj (JsPrim.pstr "foo") (some 3)) (USpec.obj (JsPrim.pstr "foo") true)
      (USpec.bare (JsPrim.pstr "foo")) true false true true true "foo" "foo").1
      rfl (by decide) rfl rfl,
   (concurrent_same_channel_race_safe ⟨[], true, false, []⟩
      ⟨["foo"], true, false, [("foo", 3)]⟩ (LSpec.bare (JsPrim.pstr "foo"))
      (LSpec.obj (JsPrim.pstr "foo") (some 3)) (USpec.obj (JsPrim.pstr "foo") true)
      (USpec.bare (JsPrim.pstr "foo")) true false true true false "foo" "foo").2
      rfl (by decide) rfl rfl⟩

/-- Claim C3: when the `LISTEN` or `UNLISTEN` command fails, the error is
reported through the callback-or-event convention and the whole state —
registry and listener table — is exactly as before the call: no registry
insert or removal, no listener attached or removed, even when
`removeListeners` was requested. -/
theorem command_failure_no_partial_mutation
    (s t : PgEe) (sp : LSpec) (u : USpec) (hasCb hasCb2 : Bool)
    (c d : String) (e f : JErr) :
    (s.connected = true → s.channels.contains c = false → sp.coerce.1 = c →
      listenRun s sp hasCb (some e) =
        (s, [Out.query (listenSql c) [],
             callbackOrEmit hasCb "error" [JsVal.verr e]])) ∧
    (t.connected = true → t.channels.contains d = true → u.coerce.1 = d →
      unlistenRun t u hasCb2 (some f) =
        (t, [Out.query (unlistenSql d) [],
             callbackOrEmit hasCb2 "error" [JsVal.verr f]])) := by
  constructor
  · intro hc hm h1
    have hm1 : s.channels.contains sp.coerce.1 = false := by rw [h1]; exact hm
    simp [listenRun, listen_fresh s sp hasCb hc hm1, listenQueryCb, h1]
  · intro hc hm h1
    have hm1 : t.channels.contains u.coerce.1 = true := by rw [h1]; exact hm
    simp [unlistenRun, unlisten_present t u hasCb2 hc hm1, unlistenQueryCb, h1]

/-- Witness for C3: concrete failing commands on tracked state. -/
theorem command_failure_no_partial_mutation_witness :
    listenRun ⟨[], true, false, []⟩ (LSpec.obj (JsPrim.pstr "a") (some 1)) true
        (some (JErr.dbErr 9)) =
      (⟨[], true, false, []⟩,
       [Out.query (listenSql "a") [],
        callbackOrEmit true "error" [JsVal.verr (JErr.dbErr 9)]]) ∧
    unlistenRun ⟨["b"], true, false, [("b", 2)]⟩ (USpec.obj (JsPrim.pstr "b") true) false
        (some (JErr.dbErr 8)) =
      (⟨["b"], true, false, [("b", 2)]⟩,
       [Out.query (unlistenSql "b") [],
        callbackOrEmit false "error" [JsVal.verr (JErr.dbErr 8)]]) :=
  ⟨(command_failure_no_partial_mutation ⟨[], true, false, []⟩
      ⟨["b"], true, false, [("b", 2)]⟩ (LSpec.obj (JsPrim.pstr "a") (some 1))
      (USpec.obj (JsPrim.pstr "b") true) true false "a" "b"
      (JErr.dbErr 9) (JErr.dbErr 8)).1 rfl (by decide) rfl,
   (command_failure_no_partial_mutation ⟨[], true, false, []⟩
      ⟨["b"], true, false, [("b", 2)]⟩ (LSpec.obj (JsPrim.pstr "a") (some 1))
      (USpec.obj (JsPrim.pstr "b") true) true false "a" "b"
      (JErr.dbErr 9) (JErr.dbErr 8)).2 rfl (by decide) rfl⟩

/-- Counterexample to C4 as stated: with a deserializer that fails on this
payload, the handler still fires the raw payload under the channel, but the
decode failure is re-thrown out of the handler (the source's `try` has a
`finally` and no `catch`) instead of being swallowed. -/
theorem parse_failure_propagates_cex :
    (connectionOnNotification (fun _ => none) ⟨"boom", "not json"⟩).1 =
      [emitLocal "boom" (JsVal.vstr "not json")] ∧
    (connectionOnNotification (fun _ => none) ⟨"boom", "not json"⟩).2 ≠ none := by
  decide

/-- Claim C4 (amended): when deserialization of an inbound notification's
payload fails, the notification is still delivered — a local event fires
under the notification's channel carrying the raw undecoded payload, and no
error event is fired — but the decode failure propagates (is re-thrown) out
of the notification handler after delivery, rather than being swallowed. -/
theorem notification_delivered_on_parse_failure
    (parse : String → Option JsVal) (n : Notification)
    (h : parse n.payload = none) :
    connectionOnNotification parse n =
      ([emitLocal n.channel (JsVal.vstr n.payload)], some JErr.parseFailure) := by
  simp [connectionOnNotification, h]

/-- Witness for C4 (amended) at a concrete notification. -/
theorem notification_delivered_on_parse_failure_witness :
    connectionOnNotification (fun _ => none) ⟨"ch", "oops"⟩ =
      ([emitLocal "ch" (JsVal.vstr "oops")], some JErr.parseFailure) :=
  notification_delivered_on_parse_failure (fun _ => none) ⟨"ch", "oops"⟩ rfl

/-! ### Per-operation facts used by the safety claims -/

theorem listen_not_connected (s : PgEe) (sp : LSpec) (hasCb : Bool)
    (h : s.connected = false) :
    listen s sp hasCb =
      ⟨s, [callbackOrEmit hasCb "error" [JsVal.verr JErr.notConnected]],
        none⟩ := by
  simp [listen, h]

theorem unlisten_not_connected (s : PgEe) (u : USpec) (hasCb : Bool)
    (h : s.connected = false) :
    unlisten s u hasCb =
      ⟨s, [callbackOrEmit hasCb "error" [JsVal.verr JErr.notConnected]],
        none⟩ := by
  simp [unlisten, h]

theorem emit_not_connected (stringify : JsVal → String) (s : PgEe)
    (event : String) (m : JsVal) (he : event ≠ "error") (h : s.connected = false) :
    emit stringify s event m =
      ⟨s, [emitLocal "error" (JsVal.verr JErr.notConnected)], none⟩ := by
  simp [emit, he, h]

theorem emitBaseThrown_non_error (s : PgEe) (event : String) (args : List JsVal)
    (he : event ≠ "error") : emitBaseThrown s event args = none := by
  simp [emitBaseThrown, he]

theorem callbackOrEmitThrown_non_error (s : PgEe) (hasCb : Bool) (event : String)
    (args : List JsVal) (he : event ≠ "error") :
    callbackOrEmitThrown s hasCb event args = none := by
  cases hasCb <;> simp [callbackOrEmitThrown, emitBaseThrown_non_error s event args he]

theorem callbackOrEmitThrown_deliverable (s : PgEe) (hasCb : Bool) (event : String)
    (args : List JsVal) (hd : hasCb = true ∨ hasListener s "error" = true) :
    callbackOrEmitThrown s hasCb event args = none := by
  rcases hd with h | h
  · simp [callbackOrEmitThrown, h]
  · cases hasCb <;> simp [callbackOrEmitThrown, emitBaseThrown, h]

theorem listenSyncThrown_none (s : PgEe) (sp : LSpec) (hasCb : Bool)
    (hd : hasCb = true ∨ hasListener s "error" = true) :
    listenSyncThrown s sp hasCb = none := by
  unfold listenSyncThrown
  split
  · exact callbackOrEmitThrown_deliverable _ _ _ _ hd
  · dsimp only
    split
    · exact callbackOrEmitThrown_non_error _ _ _ _ (by decide)
    · rfl

theorem unlistenSyncThrown_none (s : PgEe) (u : USpec) (hasCb : Bool)
    (hd : hasCb = true ∨ hasListener s "error" = true) :
    unlistenSyncThrown s u hasCb = none := by
  unfold unlistenSyncThrown
  split
  · exact callbackOrEmitThrown_deliverable _ _ _ _ hd
  · dsimp only
    split
    · exact callbackOrEmitThrown_non_error _ _ _ _ (by decide)
    · rfl

theorem emitSyncThrown_none (s : PgEe) (event : String) (m : JsVal)
    (hl : hasListener s "error" = true) :
    emitSyncThrown s event m = none := by
  unfold emitSyncThrown
  split
  · simp [emitBaseThrown, hl]
  · split
    · simp [emitBaseThrown, hl]
    · rfl

theorem connectSyncThrown_none (s : PgEe) (hasCb : Bool) :
    connectSyncThrown s hasCb = none := by
  unfold connectSyncThrown
  split
  · exact callbackOrEmitThrown_non_error _ _ _ _ (by decide)
  · rfl

/-- Counterexample to C5 as stated: public operations do throw synchronously.
With no callback supplied and no `'error'` listener registered, a
disconnected `listen` reports its not-connected error through the base
emitter's unhandled-`'error'` path and throws it synchronously; likewise the
public `emit('error', 1)` — even while connected — throws (wrapping the
non-Error value) instead of delivering anything. -/
theorem public_op_throws_sync_cex :
    listenSyncThrown ⟨[], false, false, []⟩ (LSpec.bare (JsPrim.pstr "foo")) false =
      some JErr.notConnected ∧
    emitSyncThrown ⟨[], true, false, []⟩ "error" (JsVal.vnum 1) =
      some JErr.unhandledError := by
  decide

/-- Claim C5 (amended): a public operation never throws synchronously when
its failure can be delivered — a callback was supplied or an `'error'`
listener is registered (for the callback-less public `emit`, an `'error'`
listener) — and under that proviso every failure, including the
not-connected case, is delivered through the callback-or-event result path;
`connect` and `close` never throw synchronously.  Without a callback and
without an `'error'` listener, however, a synchronously reported failure is
thrown out of the operation by the base emitter's unhandled-`'error'`
behavior. -/
theorem public_ops_sync_throw_characterized
    (s : PgEe) (sp : LSpec) (u : USpec) (stringify : JsVal → String)
    (event : String) (m : JsVal) (hasCb : Bool) :
    (hasCb = true ∨ hasListener s "error" = true →
      listenSyncThrown s sp hasCb = none ∧
      unlistenSyncThrown s u hasCb = none) ∧
    (hasListener s "error" = true → emitSyncThrown s event m = none) ∧
    connectSyncThrown s hasCb = none ∧
    closeSyncThrown s = none ∧
    (s.connected = false →
      (listen s sp hasCb).outs =
        [callbackOrEmit hasCb "error" [JsVal.verr JErr.notConnected]] ∧
      (unlisten s u hasCb).outs =
        [callbackOrEmit hasCb "error" [JsVal.verr JErr.notConnected]] ∧
      (event ≠ "error" →
        (emit stringify s event m).outs =
          [emitLocal "error" (JsVal.verr JErr.notConnected)])) ∧
    (hasCb = false → hasListener s "error" = false → s.connected = false →
      listenSyncThrown s sp hasCb = some JErr.notConnected ∧
      unlistenSyncThrown s u hasCb = some JErr.notConnected ∧
      (event ≠ "error" → emitSyncThrown s event m = some JErr.notConnected)) := by
  refine ⟨?_, ?_, ?_, ?_, ?_, ?_⟩
  · intro hd
    exact ⟨listenSyncThrown_none s sp hasCb hd, unlistenSyncThrown_none s u hasCb hd⟩
  · intro hl
    exact emitSyncThrown_none s event m hl
  · exact connectSyncThrown_none s hasCb
  · rfl
  · intro h
    refine ⟨?_, ?_, ?_⟩
    · rw [listen_not_connected s sp hasCb h]
    · rw [unlisten_not_connected s u hasCb h]
    · intro he
      rw [emit_not_connected stringify s event m he h]
  · intro hcb hl hc
    subst hcb
    refine ⟨?_, ?_, ?_⟩
    · simp [listenSyncThrown, callbackOrEmitThrown, emitBaseThrown, hc, hl]
    · simp [unlistenSyncThrown, callbackOrEmitThrown, emitBaseThrown, hc, hl]
    · intro he
      simp [emitSyncThrown, emitBaseThrown, he, hc, hl]

/-- Witness for C5 (amended): with an `'error'` listener registered the
disconnected `listen` does not throw; with no callback and no `'error'`
listener it throws the not-connected error synchronously. -/
theorem public_ops_sync_throw_characterized_witness :
    listenSyncThrown ⟨[], false, false, [("error", 0)]⟩
      (LSpec.bare (JsPrim.pstr "foo")) false = none ∧
    listenSyncThrown ⟨[], false, false, []⟩
      (LSpec.bare (JsPrim.pstr "foo")) false = some JErr.notConnected := by
  have h1 := public_ops_sync_throw_characterized ⟨[], false, false, [("error", 0)]⟩
    (LSpec.bare (JsPrim.pstr "foo")) (USpec.bare JsPrim.pnull) (fun _ => "x")
    "e" JsVal.vnull false
  have h2 := public_ops_sync_throw_characterized ⟨[], false, false, []⟩
    (LSpec.bare (JsPrim.pstr "foo")) (USpec.bare JsPrim.pnull) (fun _ => "x")
    "e" JsVal.vnull false
  exact ⟨(h1.1 (Or.inr (by decide))).1, (h2.2.2.2.2.2 rfl (by decide) rfl).1⟩

/-- Counterexample to C6 as stated: a concrete run of the sequence
`subscribe`, `unsubscribe`, `subscribe`, `unsubscribe` on channel `"foo"`
(connected, registry initially empty, every command succeeding) does not
issue exactly two database commands — it issues four. -/
theorem sub_unsub_twice_cex :
    ¬ ((subUnsubSeq ⟨[], true, false, []⟩ (LSpec.bare (JsPrim.pstr "foo"))
          (LSpec.bare (JsPrim.pstr "foo")) (USpec.bare (JsPrim.pstr "foo"))
          (USpec.bare (JsPrim.pstr "foo")) true true true true).1.channels = [] ∧
        dbCommandCount (subUnsubSeq ⟨[], true, false, []⟩
          (LSpec.bare (JsPrim.pstr "foo")) (LSpec.bare (JsPrim.pstr "foo"))
          (USpec.bare (JsPrim.pstr "foo")) (USpec.bare (JsPrim.pstr "foo"))
          true true true true).2 = 2) := by
  decide

/-- Claim C6 (amended): with a live connection and the registry initially
empty, the sequence `subscribe(c)`, `unsubscribe(c)`, `subscribe(c)`,
`unsubscribe(c)` — each call completing successfully before the next is
issued — leaves the registry empty and issues exactly four database commands
(two `LISTEN` and two `UNLISTEN`; each subscribe after an unsubscribe finds
the channel untracked and re-issues the command). -/
theorem sub_unsub_twice_four_commands (s0 : PgEe) (sp1 sp3 : LSpec)
    (u2 u4 : USpec) (cb1 cb2 cb3 cb4 : Bool) (c : String)
    (hc : s0.connected = true) (hch : s0.channels = [])
    (h1 : sp1.coerce.1 = c) (h3 : sp3.coerce.1 = c)
    (h2 : u2.coerce.1 = c) (h4 : u4.coerce.1 = c) :
    (subUnsubSeq s0 sp1 sp3 u2 u4 cb1 cb2 cb3 cb4).1.channels = [] ∧
    dbCommandCount (subUnsubSeq s0 sp1 sp3 u2 u4 cb1 cb2 cb3 cb4).2 = 4 := by
  rcases hl1 : sp1.coerce.2 with _ | l1 <;> rcases hl3 : sp3.coerce.2 with _ | l3 <;>
    cases hr2 : u2.coerce.2 <;> cases hr4 : u4.coerce.2 <;>
      simp [subUnsubSeq, listenRun, unlistenRun, listen, unlisten,
        listenQueryCb, unlistenQueryCb, removeAllListeners,
        h1, h2, h3, h4, hl1, hl3, hr2, hr4, hc, hch,
        dbCommandCount, List.countP_cons, List.countP_append,
        isQuery_callbackOrEmit, isQuery_query, isQuery_cb, isQuery_fired]

/-- Witness for C6 (amended) at a concrete run. -/
theorem sub_unsub_twice_four_commands_witness :
    (subUnsubSeq ⟨[], true, false, []⟩ (LSpec.obj (JsPrim.pstr "foo") (some 5))
        (LSpec.bare (JsPrim.pstr "foo")) (USpec.bare (JsPrim.pstr "foo"))
        (USpec.obj (JsPrim.pstr "foo") true) true false true false).1.channels = [] ∧
    dbCommandCount (subUnsubSeq ⟨[], true, false, []⟩
        (LSpec.obj (JsPrim.pstr "foo") (some 5)) (LSpec.bare (JsPrim.pstr "foo"))
        (USpec.bare (JsPrim.pstr "foo")) (USpec.obj (JsPrim.pstr "foo") true)
        true false true false).2 = 4 :=
  sub_unsub_twice_four_commands ⟨[], true, false, []⟩
    (LSpec.obj (JsPrim.pstr "foo") (some 5)) (LSpec.bare (JsPrim.pstr "foo"))
    (USpec.bare (JsPrim.pstr "foo")) (USpec.obj (JsPrim.pstr "foo") true)
    true false true false "foo" rfl rfl rfl rfl rfl rfl

/-- Claim C7: with no live connection, `listen`, `unlisten`, and `emit` on a
non-error event issue no database command, leave the registry and listener
state unchanged, and deliver a not-connected error through the
callback-or-event convention (for `emit`, which takes no callback, a fired
local error event). -/
theorem not_connected_no_command
    (s : PgEe) (sp : LSpec) (u : USpec) (stringify : JsVal → String)
    (event : String) (m : JsVal) (hasCb : Bool)
    (h : s.connected = false) :
    listen s sp hasCb =
      ⟨s, [callbackOrEmit hasCb "error" [JsVal.verr JErr.notConnected]],
        none⟩ ∧
    unlisten s u hasCb =
      ⟨s, [callbackOrEmit hasCb "error" [JsVal.verr JErr.notConnected]],
        none⟩ ∧
    (event ≠ "error" →
      emit stringify s event m =
        ⟨s, [emitLocal "error" (JsVal.verr JErr.notConnected)], none⟩) :=
  ⟨listen_not_connected s sp hasCb h, unlisten_not_connected s u hasCb h,
   fun he => emit_not_connected stringify s event m he h⟩

/-- Witness for C7 at a concrete disconnected instance. -/
theorem not_connected_no_command_witness :
    listen ⟨["x"], false, false, [("x", 1)]⟩ (LSpec.bare (JsPrim.pstr "x")) false =
      ⟨⟨["x"], false, false, [("x", 1)]⟩,
        [callbackOrEmit false "error" [JsVal.verr JErr.notConnected]],
        none⟩ ∧
    emit (fun _ => "p") ⟨["x"], false, false, [("x", 1)]⟩ "x" JsVal.vnull =
      ⟨⟨["x"], false, false, [("x", 1)]⟩,
        [emitLocal "error" (JsVal.verr JErr.notConnected)], none⟩ := by
  have h := not_connected_no_command ⟨["x"], false, false, [("x", 1)]⟩
    (LSpec.bare (JsPrim.pstr "x")) (USpec.bare (JsPrim.pstr "x"))
    (fun _ => "p") "x" JsVal.vnull false rfl
  exact ⟨h.1, h.2.2 (by decide)⟩

/-- Claim C8: `emit` with event name `'error'` fires a local error event
carrying the message through the base emitter and issues no database command,
whatever the connection state. -/
theorem emit_error_local_only (stringify : JsVal → String) (s : PgEe) (m : JsVal) :
    emit stringify s "error" m = ⟨s, [emitLocal "error" m], none⟩ := by
  simp [emit]

/-- Claim C9: `emit` on a non-error event while connected issues exactly one
`pg_notify` query with the event name and the serialized message as
parameters; on command failure a local error event carrying the underlying
error is fired and no event under the emitted name is fired; on success
nothing is fired (fire-and-forget). -/
theorem emit_notify_command (stringify : JsVal → String) (s : PgEe)
    (event : String) (m : JsVal) (e : JErr)
    (hev : event ≠ "error") (hc : s.connected = true) :
    emit stringify s event m =
      ⟨s, [Out.query notifySql [event, stringify m]], some ()⟩ ∧
    emitQueryCb s (some e) = (s, [emitLocal "error" (JsVal.verr e)]) ∧
    emitQueryCb s none = (s, []) := by
  refine ⟨?_, rfl, rfl⟩
  simp [emit, hev, hc]

/-- Witness for C9 at a concrete connected instance. -/
theorem emit_notify_command_witness :
    emit (fun _ => "42") ⟨["foo"], true, false, []⟩ "foo" (JsVal.vnum 42) =
      ⟨⟨["foo"], true, false, []⟩,
        [Out.query notifySql ["foo", "42"]], some ()⟩ ∧
    emitQueryCb ⟨["foo"], true, false, []⟩ (some (JErr.dbErr 1)) =
      (⟨["foo"], true, false, []⟩,
        [emitLocal "error" (JsVal.verr (JErr.dbErr 1))]) :=
  ⟨(emit_notify_command (fun _ => "42") ⟨["foo"], true, false, []⟩ "foo"
      (JsVal.vnum 42) (JErr.dbErr 1) (by decide) rfl).1,
   (emit_notify_command (fun _ => "42") ⟨["foo"], true, false, []⟩ "foo"
      (JsVal.vnum 42) (JErr.dbErr 1) (by decide) rfl).2.1⟩

/-- Claim C10: every internally generated event — callback-or-event result
reports, internally fired error events, and the routing of inbound
notifications — goes through the base emitter (`_emit` /
`EventEmitter.prototype.emit`) and never issues a database command, even for
event names (`"listen"`, `"connect"`, or a channel name) that would trigger
a `pg_notify` were a caller to pass them to the public `emit` while
connected. -/
theorem internal_delivery_never_notifies
    (event : String) (args : List JsVal) (m : JsVal) (hasCb : Bool)
    (parse : String → Option JsVal) (n : Notification) :
    (emitLocal event m).isQuery = false ∧
    (callbackOrEmit hasCb event args).isQuery = false ∧
    (∀ o ∈ (connectionOnNotification parse n).1, o.isQuery = false) ∧
    (∀ stringify : JsVal → String, ∀ s : PgEe,
      s.connected = true → event ≠ "error" →
      dbCommandCount (emit stringify s event m).outs = 1) := by
  refine ⟨rfl, isQuery_callbackOrEmit hasCb event args, ?_, ?_⟩
  · intro o ho
    rcases h : parse n.payload with _ | v <;>
      simp [connectionOnNotification, h] at ho <;>
      simp [ho, emitLocal, Out.isQuery]
  · intro stringify s hc hev
    simp [emit, hev, hc, dbCommandCount, List.countP_cons, isQuery_query]

/-- Witness for C10 at concrete internal events. -/
theorem internal_delivery_never_notifies_witness :
    (emitLocal "listen" JsVal.vnull).isQuery = false ∧
    (∀ o ∈ (connectionOnNotification (fun _ => some JsVal.vnull)
        ⟨"listen", "null"⟩).1, o.isQuery = false) ∧
    dbCommandCount (emit (fun _ => "null") ⟨[], true, false, []⟩ "listen"
      JsVal.vnull).outs = 1 := by
  have h := internal_delivery_never_notifies "listen" [] JsVal.vnull true
    (fun _ => some JsVal.vnull) ⟨"listen", "null"⟩
  exact ⟨h.1, h.2.2.1, h.2.2.2 (fun _ => "null") ⟨[], true, false, []⟩ rfl (by decide)⟩

end Pgee
